import Mathlib

/-!
Verification of the `nothrow` Result library (`src/index.ts`).

The embedding models JavaScript runtime values as the inductive type `JSVal`
and exception-throwing computations as `JSOutcome` (normal return or thrown
value).  Objects are modelled as association lists of string keys in literal
order, with later entries shadowing earlier ones (as in a JS object literal
with duplicate keys); `lookupField` therefore returns the last binding.
The runtime-captured trace string `new Error().stack!` is environment data,
so `err`, `safe` and `safeAsync` take it as an explicit parameter
`capturedStack`.
-/

/-- A JavaScript runtime value.  Functions carry their own (expando)
properties; arrays carry their elements. -/
inductive JSVal where
  | vNull
  | vUndefined
  | vBool (b : Bool)
  | vNum (n : Int)
  | vStr (s : String)
  | vObj (fields : List (String × JSVal))
  | vArr (elems : List JSVal)
  | vFun (fields : List (String × JSVal))

/-- The JavaScript `typeof` operator; note `typeof null` is "object" and
arrays are objects, while functions have their own tag. -/
def jsTypeof : JSVal → String
  | JSVal.vNull => "object"
  | JSVal.vUndefined => "undefined"
  | JSVal.vBool _ => "boolean"
  | JSVal.vNum _ => "number"
  | JSVal.vStr _ => "string"
  | JSVal.vObj _ => "object"
  | JSVal.vArr _ => "object"
  | JSVal.vFun _ => "function"

/-- Strict comparison with `null` (`r !== null` is false only for `null`). -/
def isNullVal : JSVal → Bool
  | JSVal.vNull => true
  | _ => false

/-- Strict comparison with the boolean literal `false` (`x === false`). -/
def isFalseVal : JSVal → Bool
  | JSVal.vBool false => true
  | _ => false

/-- Look up a key in an object field list; the recursion consults the tail
first, so a later (rightmost) binding shadows an earlier one, matching a JS
object literal with repeated keys. -/
def lookupField : List (String × JSVal) → String → Option JSVal
  | [], _ => none
  | p :: rest, k =>
    match lookupField rest k with
    | some v => some v
    | none => if p.1 == k then some p.2 else none

/-- Numeric value of a list of decimal digit characters. -/
def charsToNat (cs : List Char) : Nat :=
  cs.foldl (fun a c => a * 10 + (c.toNat - 48)) 0

/-- Whether the key `k` is a canonical array-index key below the bound `n`
(a non-empty all-digit string without a superfluous leading zero). -/
def isIndexKey (k : String) (n : Nat) : Bool :=
  !k.toList.isEmpty && k.toList.all Char.isDigit &&
    (k.toList == ['0'] || !(k.toList.head? == some '0')) &&
    decide (charsToNat k.toList < n)

/-- The JavaScript `in` operator restricted to own properties (no prototype
chain is modelled); arrays own `length` and their index keys. -/
def hasField : JSVal → String → Bool
  | JSVal.vObj fs, k => (lookupField fs k).isSome
  | JSVal.vFun fs, k => (lookupField fs k).isSome
  | JSVal.vArr es, k => k == "length" || isIndexKey k es.length
  | _, _ => false

/-- Own-property read on a value already known not to be `null` or
`undefined`; absent properties read as `undefined`.  Boxed strings own
`length` and their index keys; other primitives own nothing. -/
def getField : JSVal → String → JSVal
  | JSVal.vObj fs, k => (lookupField fs k).getD JSVal.vUndefined
  | JSVal.vFun fs, k => (lookupField fs k).getD JSVal.vUndefined
  | JSVal.vArr es, k =>
      if k == "length" then JSVal.vNum (es.length : Int)
      else if isIndexKey k es.length then
        es.getD (charsToNat k.toList) JSVal.vUndefined
      else JSVal.vUndefined
  | JSVal.vStr s, k =>
      if k == "length" then JSVal.vNum (s.toList.length : Int)
      else if isIndexKey k s.toList.length then
        JSVal.vStr (String.mk [s.toList.getD (charsToNat k.toList) ' '])
      else JSVal.vUndefined
  | _, _ => JSVal.vUndefined

/-- Spread `{...v}`: own enumerable properties of objects and functions,
index properties of arrays and strings, nothing for other primitives. -/
def spreadFields : JSVal → List (String × JSVal)
  | JSVal.vObj fs => fs
  | JSVal.vFun fs => fs
  | JSVal.vArr es => es.enum.map (fun p => (toString p.1, p.2))
  | JSVal.vStr s =>
      s.toList.enum.map (fun p => (toString p.1, JSVal.vStr (String.mk [p.2])))
  | _ => []

/-- Outcome of evaluating a JavaScript expression or zero-argument call:
either a normal completion with a value or a thrown value.  For the promise
returned by an async function, `ret` reads as fulfilment and `thrown` as
rejection. -/
inductive JSOutcome where
  | ret (v : JSVal)
  | thrown (e : JSVal)

/-- True when the outcome is a normal completion (no exception escaped). -/
def JSOutcome.isRet : JSOutcome → Bool
  | JSOutcome.ret _ => true
  | JSOutcome.thrown _ => false

/-- The TypeError the runtime throws on reading a property of `null`; its
message text is diagnostic only. -/
def typeErrorNullRead (k : String) : JSVal :=
  JSVal.vObj [("message",
    JSVal.vStr ("Cannot read properties of null (reading " ++ k ++ ")"))]

/-- The TypeError the runtime throws on reading a property of `undefined`. -/
def typeErrorUndefinedRead (k : String) : JSVal :=
  JSVal.vObj [("message",
    JSVal.vStr ("Cannot read properties of undefined (reading " ++ k ++ ")"))]

/-- Property access `v.k` as an expression: throws a TypeError on `null` and
`undefined`, otherwise reads the own property (absent reads as
`undefined`). -/
def getProp (v : JSVal) (k : String) : JSOutcome :=
  match v with
  | JSVal.vNull => JSOutcome.thrown (typeErrorNullRead k)
  | JSVal.vUndefined => JSOutcome.thrown (typeErrorUndefinedRead k)
  | _ => JSOutcome.ret (getField v k)

/-- A runtime `Error` instance: own properties `message` and `stack` (as
produced by `new Error(msg)`). -/
def mkError (msg stk : String) : JSVal :=
  JSVal.vObj [("message", JSVal.vStr msg), ("stack", JSVal.vStr stk)]

/-- `ok` from the source: `return value;` — the identity, no envelope. -/
def ok (value : JSVal) : JSVal := value

/-- `err` from the source: `return \x7b ok: false, ...reason, stack: new
Error().stack! \x7d;`.  The literal writes `ok: false` first, then spreads
`reason` (which may shadow `ok`), then writes `stack`; the runtime-captured
trace string is the explicit parameter `capturedStack`. -/
def err (capturedStack : String) (reason : JSVal) : JSVal :=
  JSVal.vObj (("ok", JSVal.vBool false) ::
    (spreadFields reason ++ [("stack", JSVal.vStr capturedStack)]))

/-- `isErr` from the source: `typeof r === "object" && r !== null && "ok" in
r && r.ok === false`. -/
def isErr (r : JSVal) : Bool :=
  jsTypeof r == "object" && !isNullVal r && hasField r "ok" &&
    isFalseVal (getField r "ok")

/-- `isOk` from the source: `!isErr(r)`. -/
def isOk (r : JSVal) : Bool := !isErr r

/-- The default `mapError` of `safe` and `safeAsync`:
`(e) => (\x7b reason: (e as Error).message \x7d as E)`.  The property read
`(e as Error).message` can itself throw (on `null`/`undefined`), in which
case the mapper throws. -/
def defaultMapError (e : JSVal) : JSOutcome :=
  match getProp e "message" with
  | JSOutcome.ret m => JSOutcome.ret (JSVal.vObj [("reason", m)])
  | JSOutcome.thrown t => JSOutcome.thrown t

/-- `safe` from the source: `try \x7b return ok(fn()) \x7d catch (e) \x7b
return err(mapError(e)) \x7d`.  `fn` is the outcome of calling the
zero-argument callable; `mapError` is the mapper as a callable that may
itself throw — a throw inside the catch block propagates out of `safe`. -/
def safe (fn : JSOutcome) (mapError : JSVal → JSOutcome)
    (capturedStack : String) : JSOutcome :=
  match fn with
  | JSOutcome.ret v => JSOutcome.ret (ok v)
  | JSOutcome.thrown e =>
    match mapError e with
    | JSOutcome.ret shape => JSOutcome.ret (err capturedStack shape)
    | JSOutcome.thrown e2 => JSOutcome.thrown e2

/-- `safeAsync` from the source: `try \x7b return ok(await fn()) \x7d catch
(e) \x7b return err(mapError(e)) \x7d` inside an async function.  `fn` is
the settlement of the awaited promise (`thrown` = rejection, and also covers
a synchronous throw of `fn` itself); the result is the settlement of the
returned promise, where `thrown` means the outer promise rejects. -/
def safeAsync (fn : JSOutcome) (mapError : JSVal → JSOutcome)
    (capturedStack : String) : JSOutcome :=
  match fn with
  | JSOutcome.ret v => JSOutcome.ret (ok v)
  | JSOutcome.thrown e =>
    match mapError e with
    | JSOutcome.ret shape => JSOutcome.ret (err capturedStack shape)
    | JSOutcome.thrown e2 => JSOutcome.thrown e2

/-- Spec-side classification, written from the words of the spec: a failure
is a non-null structured object containing the marker field `ok` set to
`false`; every other value is a success. -/
def specIsFailure (v : JSVal) : Bool :=
  match v with
  | JSVal.vObj fs =>
    match lookupField fs "ok" with
    | some w => isFalseVal w
    | none => false
  | _ => false

theorem lookupField_append (l1 l2 : List (String × JSVal)) (k : String) :
    lookupField (l1 ++ l2) k =
      match lookupField l2 k with
      | some v => some v
      | none => lookupField l1 k := by
  induction l1 with
  | nil =>
    rw [List.nil_append]
    cases lookupField l2 k <;> rfl
  | cons p rest ih =>
    rw [List.cons_append]
    show (match lookupField (rest ++ l2) k with
      | some v => some v
      | none => if p.1 == k then some p.2 else none) = _
    rw [ih]
    cases lookupField l2 k <;> rfl

/-- Field reads on the record built by `err`: `stack` is always the freshly
captured trace, `ok` is what `reason` binds it to when present (else the
marker `false`), and every other key reads as it does on `reason`. -/
theorem getField_err (fs : List (String × JSVal)) (s k : String) :
    getField (err s (JSVal.vObj fs)) k =
      if k = "stack" then JSVal.vStr s
      else if k = "ok" then
        (match lookupField fs "ok" with
          | some v => some v
          | none => some (JSVal.vBool false)).getD JSVal.vUndefined
      else (lookupField fs k).getD JSVal.vUndefined := by
  show (lookupField (("ok", JSVal.vBool false) ::
      (fs ++ [("stack", JSVal.vStr s)])) k).getD JSVal.vUndefined = _
  simp only [lookupField]
  rw [lookupField_append]
  by_cases h1 : k = "stack"
  · subst h1
    rw [if_pos rfl]
    rfl
  · rw [if_neg h1]
    have hb1 : (("stack" : String) == k) = false :=
      beq_eq_false_iff_ne.mpr (fun h => h1 h.symm)
    have hl1 : lookupField [("stack", JSVal.vStr s)] k = none := by
      simp [lookupField, hb1]
    rw [hl1]
    by_cases h2 : k = "ok"
    · subst h2
      rw [if_pos rfl]
      cases lookupField fs "ok" <;> rfl
    · rw [if_neg h2]
      have hb2 : (("ok" : String) == k) = false :=
        beq_eq_false_iff_ne.mpr (fun h => h2 h.symm)
      cases lookupField fs k
      · simp [hb2]
      · rfl

/-- C1 (amended): `safe` never lets an exception propagate — it returns a
Result value — whenever the error mapper returns normally on the caught
value; when the mapper itself throws inside the catch block, as the default
mapper does on a thrown `null` or `undefined`, that exception propagates to
the caller. -/
theorem safe_total_when_mapper_returns (fn : JSOutcome)
    (mapError : JSVal → JSOutcome) (s : String)
    (h : ∀ e, fn = JSOutcome.thrown e → (mapError e).isRet = true) :
    (safe fn mapError s).isRet = true := by
  cases fn with
  | ret v => rfl
  | thrown e =>
    have he := h e rfl
    cases hm : mapError e with
    | ret shape => simp [safe, hm, JSOutcome.isRet]
    | thrown e2 => rw [hm] at he; exact absurd he (by simp [JSOutcome.isRet])

theorem safe_total_when_mapper_returns_witness :
    (safe (JSOutcome.thrown (JSVal.vStr "oops"))
      (fun e => JSOutcome.ret (JSVal.vObj [("reason", e)])) "st").isRet =
      true :=
  safe_total_when_mapper_returns _ _ _ (fun _ _ => rfl)

/-- C1 fails as stated: when the mapper is omitted (the default mapper) and
the callable throws `null`, `safe` does not return a Result — the TypeError
raised by the default mapper reading `.message` of `null` inside the catch
block propagates to the caller. -/
theorem safe_default_mapper_propagates_on_null :
    safe (JSOutcome.thrown JSVal.vNull) defaultMapError "st" =
      JSOutcome.thrown (typeErrorNullRead "message") ∧
    (safe (JSOutcome.thrown JSVal.vNull) defaultMapError "st").isRet =
      false :=
  ⟨rfl, rfl⟩

/-- C2 (amended): the promise returned by `safeAsync` settles successfully
with a Result value whenever the error mapper returns normally on the
rejection value; when the mapper itself throws, as the default mapper does
on a `null` or `undefined` rejection value, the outer promise rejects. -/
theorem safeAsync_total_when_mapper_returns (fn : JSOutcome)
    (mapError : JSVal → JSOutcome) (s : String)
    (h : ∀ e, fn = JSOutcome.thrown e → (mapError e).isRet = true) :
    (safeAsync fn mapError s).isRet = true := by
  cases fn with
  | ret v => rfl
  | thrown e =>
    have he := h e rfl
    cases hm : mapError e with
    | ret shape => simp [safeAsync, hm, JSOutcome.isRet]
    | thrown e2 => rw [hm] at he; exact absurd he (by simp [JSOutcome.isRet])

theorem safeAsync_total_when_mapper_returns_witness :
    (safeAsync (JSOutcome.ret (JSVal.vNum 7)) defaultMapError "st").isRet =
      true :=
  safeAsync_total_when_mapper_returns _ _ _ (fun _ h => JSOutcome.noConfusion h)

/-- C2 fails as stated: when the wrapped promise rejects with `null` and the
mapper is omitted, the default mapper throws a TypeError reading `.message`
of `null`, so the promise returned by `safeAsync` rejects instead of
settling with a Result. -/
theorem safeAsync_default_mapper_rejects_on_null :
    safeAsync (JSOutcome.thrown JSVal.vNull) defaultMapError "st" =
      JSOutcome.thrown (typeErrorNullRead "message") ∧
    (safeAsync (JSOutcome.thrown JSVal.vNull) defaultMapError "st").isRet =
      false :=
  ⟨rfl, rfl⟩

/-- C3: `isErr` returns true exactly on the values the spec classifies as
failures — non-null objects whose `ok` field is `false` — and every other
value (null, undefined, primitives, arrays, functions, objects without the
marker) is classified as success by both predicates. -/
theorem isErr_iff_spec_failure (v : JSVal) :
    isErr v = specIsFailure v ∧ isOk v = !specIsFailure v := by
  have h : isErr v = specIsFailure v := by
    cases v with
    | vObj fs =>
      cases hl : lookupField fs "ok" with
      | none =>
        simp [isErr, specIsFailure, hasField, getField, jsTypeof, isNullVal,
          hl]
      | some w =>
        simp [isErr, specIsFailure, hasField, getField, jsTypeof, isNullVal,
          hl]
    | vNull => rfl
    | vUndefined => rfl
    | vBool b => rfl
    | vNum n => rfl
    | vStr s => rfl
    | vArr es => rfl
    | vFun fs => rfl
  refine ⟨h, ?_⟩
  show (!isErr v) = !specIsFailure v
  rw [h]

/-- C4: `safe` returns `ok(v)` (that is, `v` itself) when the callable
completes normally with `v`, and returns `err(mapError(e))` when the
callable throws `e` and the mapper returns a reason shape, so the failure
record is exactly `err` applied to the mapper output. -/
theorem safe_maps_outcomes (mapError : JSVal → JSOutcome) (s : String) :
    (∀ v, safe (JSOutcome.ret v) mapError s = JSOutcome.ret (ok v)) ∧
    (∀ e shape, mapError e = JSOutcome.ret shape →
      safe (JSOutcome.thrown e) mapError s = JSOutcome.ret (err s shape)) := by
  refine ⟨fun v => rfl, fun e shape h => ?_⟩
  show (match mapError e with
    | JSOutcome.ret shape => JSOutcome.ret (err s shape)
    | JSOutcome.thrown e2 => JSOutcome.thrown e2) = JSOutcome.ret (err s shape)
  rw [h]

theorem safe_maps_outcomes_witness :
    safe (JSOutcome.ret (JSVal.vNum 42)) defaultMapError "st" =
      JSOutcome.ret (ok (JSVal.vNum 42)) ∧
    safe (JSOutcome.thrown (mkError "boom" "orig")) defaultMapError "st" =
      JSOutcome.ret (err "st" (JSVal.vObj [("reason", JSVal.vStr "boom")])) :=
  ⟨(safe_maps_outcomes defaultMapError "st").1 (JSVal.vNum 42),
   (safe_maps_outcomes defaultMapError "st").2 (mkError "boom" "orig")
     (JSVal.vObj [("reason", JSVal.vStr "boom")]) rfl⟩

/-- C5: `ok` is the identity — it returns its argument unchanged, with no
wrapping envelope, for every value. -/
theorem ok_identity (v : JSVal) : ok v = v := rfl

/-- C6 fails as stated: when the reason shape itself contains an `ok` field,
the spread `\x7b ok: false, ...reason, ... \x7d` lets that field override
the marker, so the record built by `err` can carry `ok: true` and is then
not even classified as a failure. -/
theorem err_marker_overridden_by_reason_ok :
    getField (err "trace"
      (JSVal.vObj [("reason", JSVal.vStr "X"), ("ok", JSVal.vBool true)]))
      "ok" = JSVal.vBool true ∧
    isErr (err "trace"
      (JSVal.vObj [("reason", JSVal.vStr "X"), ("ok", JSVal.vBool true)])) =
      false :=
  ⟨rfl, rfl⟩

/-- C6 (amended): for a reason shape containing a `reason` field and no `ok`
field, `err` builds a record whose `ok` marker is `false`, which preserves
every field of the reason shape other than `ok` and `stack`, and whose
`stack` field is the (non-empty) captured trace string. -/
theorem err_builds_failure_record (fs : List (String × JSVal)) (s : String)
    (hok : lookupField fs "ok" = none)
    (_hreason : hasField (JSVal.vObj fs) "reason" = true)
    (hs : s ≠ "") :
    getField (err s (JSVal.vObj fs)) "ok" = JSVal.vBool false ∧
    (∀ k, k ≠ "ok" → k ≠ "stack" →
      getField (err s (JSVal.vObj fs)) k = getField (JSVal.vObj fs) k) ∧
    getField (err s (JSVal.vObj fs)) "stack" = JSVal.vStr s ∧ s ≠ "" := by
  refine ⟨?_, ?_, ?_, hs⟩
  · rw [getField_err, if_neg (by decide : ¬("ok" : String) = "stack"),
      if_pos rfl, hok]
    rfl
  · intro k hk1 hk2
    rw [getField_err, if_neg hk2, if_neg hk1]
    rfl
  · rw [getField_err, if_pos rfl]

theorem err_builds_failure_record_witness :
    getField (err "trace" (JSVal.vObj [("reason", JSVal.vStr "X")])) "ok" =
      JSVal.vBool false ∧
    getField (err "trace" (JSVal.vObj [("reason", JSVal.vStr "X")]))
      "reason" = JSVal.vStr "X" ∧
    getField (err "trace" (JSVal.vObj [("reason", JSVal.vStr "X")]))
      "stack" = JSVal.vStr "trace" :=
  ⟨(err_builds_failure_record [("reason", JSVal.vStr "X")] "trace" rfl rfl
      (by decide)).1,
   (err_builds_failure_record [("reason", JSVal.vStr "X")] "trace" rfl rfl
      (by decide)).2.1 "reason" (by decide) (by decide),
   (err_builds_failure_record [("reason", JSVal.vStr "X")] "trace" rfl rfl
      (by decide)).2.2.1⟩

/-- C7 fails as stated: the default mapper is `(e) => (\x7b reason: (e as
Error).message \x7d)` with no string-form fallback, so a thrown non-Error
value such as the string "raw" yields `reason === undefined`, not a string
reason. -/
theorem default_mapper_undefined_reason_on_string :
    safe (JSOutcome.thrown (JSVal.vStr "raw")) defaultMapError "st" =
      JSOutcome.ret (err "st" (JSVal.vObj [("reason", JSVal.vUndefined)])) ∧
    getField (err "st" (JSVal.vObj [("reason", JSVal.vUndefined)]))
      "reason" = JSVal.vUndefined ∧
    jsTypeof (getField (err "st" (JSVal.vObj [("reason", JSVal.vUndefined)]))
      "reason") = "undefined" :=
  ⟨rfl, rfl, rfl⟩

/-- C7 (amended): the default mapper produces `\x7b reason: e.message \x7d`:
for a thrown Error the reason is the error message (so throwing
`new Error("boom")` yields `reason === "boom"`), while a thrown non-Error
value with no `message` property — such as a string — yields
`reason === undefined` rather than the string form of the exception. -/
theorem default_mapper_extracts_message_only (msg estk s : String) :
    safe (JSOutcome.thrown (mkError msg estk)) defaultMapError s =
      JSOutcome.ret (err s (JSVal.vObj [("reason", JSVal.vStr msg)])) ∧
    getField (err s (JSVal.vObj [("reason", JSVal.vStr msg)])) "reason" =
      JSVal.vStr msg ∧
    safe (JSOutcome.thrown (JSVal.vStr "raw")) defaultMapError s =
      JSOutcome.ret (err s (JSVal.vObj [("reason", JSVal.vUndefined)])) :=
  ⟨rfl, rfl, rfl⟩

/-- C8: `isOk` is the boolean negation of `isErr` — on every value the two
predicates disagree, never both true and never both false — and the record
built by `err` on `\x7b reason: "r" \x7d` satisfies `isErr` and refutes
`isOk`. -/
theorem isOk_is_negation_of_isErr (r : JSVal) (s : String) :
    isOk r = !isErr r ∧
    ¬(isErr r = true ∧ isOk r = true) ∧
    ¬(isErr r = false ∧ isOk r = false) ∧
    isErr (err s (JSVal.vObj [("reason", JSVal.vStr "r")])) = true ∧
    isOk (err s (JSVal.vObj [("reason", JSVal.vStr "r")])) = false := by
  refine ⟨rfl, ?_, ?_, rfl, rfl⟩
  · rintro ⟨h1, h2⟩
    rw [isOk, h1] at h2
    exact Bool.noConfusion h2
  · rintro ⟨h1, h2⟩
    rw [isOk, h1] at h2
    exact Bool.noConfusion h2

/-- C9: `err` writes the freshly captured trace after spreading the reason
shape, so the record's `stack` field is always the captured trace (a
caller-supplied `stack` in the reason shape is discarded), while every other
field present on the reason shape — `ok` included — is preserved. -/
theorem err_discards_caller_stack (fs : List (String × JSVal)) (s : String) :
    getField (err s (JSVal.vObj fs)) "stack" = JSVal.vStr s ∧
    ∀ k, k ≠ "stack" → hasField (JSVal.vObj fs) k = true →
      getField (err s (JSVal.vObj fs)) k = getField (JSVal.vObj fs) k := by
  refine ⟨?_, ?_⟩
  · rw [getField_err, if_pos rfl]
  · intro k hk hf
    rw [getField_err, if_neg hk]
    by_cases h2 : k = "ok"
    · subst h2
      cases hl : lookupField fs "ok" with
      | none => simp [hasField, hl] at hf
      | some w => rw [if_pos rfl]; simp [getField, hl]
    · rw [if_neg h2]
      rfl

theorem err_discards_caller_stack_witness :
    getField (err "fresh"
      (JSVal.vObj [("reason", JSVal.vStr "X"), ("stack", JSVal.vStr "old")]))
      "stack" = JSVal.vStr "fresh" ∧
    getField (err "fresh"
      (JSVal.vObj [("reason", JSVal.vStr "X"), ("stack", JSVal.vStr "old")]))
      "reason" = JSVal.vStr "X" :=
  ⟨(err_discards_caller_stack
      [("reason", JSVal.vStr "X"), ("stack", JSVal.vStr "old")] "fresh").1,
   (err_discards_caller_stack
      [("reason", JSVal.vStr "X"), ("stack", JSVal.vStr "old")] "fresh").2
      "reason" (by decide) rfl⟩

/-- C10: `isErr` tests `typeof` before looking for the marker, so any value
whose runtime type tag is not "object" — a function in particular — is
classified as success even if it carries a property `ok` equal to
`false`. -/
theorem isErr_requires_object_typeof (v : JSVal)
    (h : jsTypeof v ≠ "object") : isErr v = false ∧ isOk v = true := by
  have hb : (jsTypeof v == "object") = false := beq_eq_false_iff_ne.mpr h
  have h1 : isErr v = false := by
    rw [isErr, hb]
    rfl
  exact ⟨h1, by rw [isOk, h1]; rfl⟩

theorem isErr_requires_object_typeof_witness :
    isErr (JSVal.vFun [("ok", JSVal.vBool false)]) = false ∧
    isOk (JSVal.vFun [("ok", JSVal.vBool false)]) = true :=
  isErr_requires_object_typeof (JSVal.vFun [("ok", JSVal.vBool false)])
    (by decide)

